import Mathlib

/-!
Shallow embedding of the swap-callback hook, the wagmi configuration helpers
and the ethers provider adapter of this repository, together with theorems
settling the behavioural claims about them.

Embedded sources:
* `useSwapCallback` / `useSwapTransactionStatus` / `getUniversalRouterFeeFields`
  (the swap-callback hook file);
* `orderedTransportUrls` / `defaultOnFetchResponse` (the wagmi configuration file);
* `clientToProvider` / `useEthersProvider` / `useEthersWeb3Provider`
  (`apps/web/src/hooks/useEthersProvider.ts`).

External collaborators (stores, account hook, chain switcher, the two swap
execution strategies, the logger, the SDK slippage computations) are modelled
as explicit parameters of the embedded functions: stateful stores become
explicit list-valued state, async strategy invocations become their
`Except`-valued outcome supplied by the environment, and the JavaScript
distinction between a normal return and a thrown `TypeError` is made explicit
with a dedicated result type.
-/

namespace UniswapInterface

/-! ### Basic SDK / domain types -/

/-- `TradeType` from the uniswap sdk-core: direction of the trade. -/
inductive TradeType where
  | EXACT_INPUT
  | EXACT_OUTPUT
deriving Repr, DecidableEq

/-- `OffchainOrderType` from `state/routing/types`: classification of an
off-chain order.  `DUTCH_AUCTION` is the standard Dutch-auction type used as
the default in `useSwapCallback`. -/
inductive OffchainOrderType where
  | DUTCH_AUCTION
  | DUTCH_V2
  | LIMIT_ORDER
deriving Repr, DecidableEq

/-- `TradeFillType` from `state/routing/types`: the tag of a trade / result. -/
inductive TradeFillType where
  | Classic
  | UniswapX
  | UniswapXv2
deriving Repr, DecidableEq

/-- Transaction type tag; `useSwapCallback` only ever emits `Swap`. -/
inductive TransactionType where
  | Swap
deriving Repr, DecidableEq

/-- Lifecycle status of a recorded transaction
(`uniswap/src/features/transactions/types/transactionDetails`). -/
inductive TransactionStatus where
  | Pending
  | Success
  | Failed
deriving Repr, DecidableEq

/-- A `Percent` from the sdk: an exact fraction (numerator / denominator).
Slippage tolerances and swap-fee percentages only flow through the embedded
code unchanged, so the representation is an opaque pair. -/
structure Percent where
  num : Nat
  den : Nat
deriving Repr, DecidableEq

/-- A currency, identified by the string id that `currencyId` computes for it. -/
structure Currency where
  cid : String
deriving Repr, DecidableEq

/-- `currencyId` from `uniswap/src/utils/currencyId`: the canonical string id
of a currency (external utility, modelled as the stored id). -/
def currencyId (c : Currency) : String :=
  c.cid

/-- A CurrencyAmount: a currency together with its raw integer quotient. -/
structure CurrencyAmount where
  currency : Currency
  quotient : Nat
deriving Repr, DecidableEq

/-- An ethers `BigNumber` as used here: an integer payload. -/
structure BigNumber where
  val : Nat
deriving Repr, DecidableEq

/-- `BigNumber.from` on an already-integral raw amount. -/
def bigNumberFrom (n : Nat) : BigNumber :=
  ⟨n⟩

/-- The swap-fee descriptor carried by a classic trade
(`trade.swapFee`: percent, raw amount and recipient). -/
structure SwapFee where
  percent : Percent
  amount : Nat
  recipient : String
deriving Repr, DecidableEq

/-! ### Trades -/

/-- Fields common to every `InterfaceTrade`: direction, amounts, and the
SDK-computed slippage-adjusted bounds.  `minimumAmountOutQuot s` is the
quotient of `trade.minimumAmountOut(s)` and `maximumAmountInQuot s` the
quotient of `trade.maximumAmountIn(s)`; both are SDK methods external to this
repository, so they enter the model as opaque functions of the tolerance. -/
structure TradeCommon where
  tradeType : TradeType
  inputAmount : CurrencyAmount
  outputAmount : CurrencyAmount
  minimumAmountOutQuot : Percent → Nat
  maximumAmountInQuot : Percent → Nat

/-- `InterfaceTrade`, a union discriminated by fill type
(`state/routing/types`): a classic on-chain trade with an optional swap fee,
or a UniswapX (v1 / v2) off-chain order trade, which always carries an
`offchainOrderType`. -/
inductive InterfaceTrade where
  | classic (common : TradeCommon) (swapFee : Option SwapFee)
  | uniswapX (common : TradeCommon) (offchainOrderType : OffchainOrderType)
  | uniswapXv2 (common : TradeCommon) (offchainOrderType : OffchainOrderType)

/-- The common fields of a trade, whatever its tag. -/
def InterfaceTrade.common : InterfaceTrade → TradeCommon
  | .classic c _ => c
  | .uniswapX c _ => c
  | .uniswapXv2 c _ => c

/-- `isClassicTrade` from `state/routing/utils`: the optional trade is present
and its fill type is `Classic`. -/
def isClassicTrade : Option InterfaceTrade → Bool
  | some (.classic _ _) => true
  | _ => false

/-- `isUniswapXTrade` from `state/routing/utils`: the optional trade is
present and its fill type is `UniswapX` or `UniswapXv2`. -/
def isUniswapXTrade : Option InterfaceTrade → Bool
  | some (.uniswapX _ _) => true
  | some (.uniswapXv2 _ _) => true
  | _ => false

/-! ### Universal Router fee fields (`getUniversalRouterFeeFields`) -/

/-- `FeeOptions` (v3-sdk): percentage fee with recipient. -/
structure FeeOptions where
  fee : Percent
  recipient : String
deriving Repr, DecidableEq

/-- `FlatFeeOptions` (universal-router-sdk): flat amount with recipient. -/
structure FlatFeeOptions where
  amount : BigNumber
  recipient : String
deriving Repr, DecidableEq

/-- `UniversalRouterFeeField`: either a percentage-fee record or a flat-fee
record, never both. -/
inductive UniversalRouterFeeField where
  | feeOptions (options : FeeOptions)
  | flatFeeOptions (options : FlatFeeOptions)
deriving Repr, DecidableEq

/-- `getUniversalRouterFeeFields`: `undefined` unless the trade is a classic
trade with a `swapFee`; for an `EXACT_INPUT` trade a percentage fee, otherwise
a flat fee built with `BigNumber.from`. -/
def getUniversalRouterFeeFields (trade : Option InterfaceTrade) : Option UniversalRouterFeeField :=
  match trade with
  | some (.classic common swapFee) =>
    match swapFee with
    | none => none
    | some fee =>
      if common.tradeType = TradeType.EXACT_INPUT then
        some (.feeOptions { fee := fee.percent, recipient := fee.recipient })
      else
        some (.flatFeeOptions { amount := bigNumberFrom fee.amount, recipient := fee.recipient })
  | _ => none

/-! ### Swap results -/

/-- The response payload of a UniswapX order result: order hash, deadline
(expiry) and the encoded order. -/
structure UniswapXOrderResponse where
  orderHash : String
  deadline : Nat
  encodedOrder : String
deriving Repr, DecidableEq

/-- The response payload of a classic on-chain result: the transaction hash
(of the submitted `TransactionResponse`). -/
structure ClassicResponse where
  hash : String
deriving Repr, DecidableEq

/-- `SwapResult`: the tagged union returned by the two execution strategies.
A classic result also carries an optional deadline (`result.deadline`,
a `BigNumber`, recorded via `toNumber()`). -/
inductive SwapResult where
  | uniswapX (response : UniswapXOrderResponse)
  | uniswapXv2 (response : UniswapXOrderResponse)
  | classic (response : ClassicResponse) (deadline : Option Nat)
deriving Repr, DecidableEq

/-- `result.type === TradeFillType.UniswapX || result.type === TradeFillType.UniswapXv2`:
whether the result is an off-chain order outcome. -/
def isUniswapXOrderResult : SwapResult → Bool
  | .uniswapX _ => true
  | .uniswapXv2 _ => true
  | .classic _ _ => false

/-! ### TransactionInfo -/

/-- The `TransactionInfo` object literal built by `useSwapCallback`.  The six
direction-specific raw-amount fields are optional: the JavaScript spread
includes exactly one triple of them, the other three being absent. -/
structure TransactionInfo where
  type : TransactionType
  inputCurrencyId : String
  outputCurrencyId : String
  isUniswapXOrder : Bool
  tradeType : TradeType
  inputCurrencyAmountRaw : Option String
  expectedOutputCurrencyAmountRaw : Option String
  minimumOutputCurrencyAmountRaw : Option String
  maximumInputCurrencyAmountRaw : Option String
  outputCurrencyAmountRaw : Option String
  expectedInputCurrencyAmountRaw : Option String
deriving Repr, DecidableEq

/-- The `swapInfo` construction of `useSwapCallback` (the object literal at
the top of the post-execution section): currency ids, the off-chain-order
flag derived from the result tag, and the direction-dependent raw amounts
(`quotient.toString()` throughout). -/
def buildSwapInfo (trade : InterfaceTrade) (allowedSlippage : Percent) (result : SwapResult) :
    TransactionInfo :=
  let c := trade.common
  if c.tradeType = TradeType.EXACT_INPUT then
    { type := .Swap
      inputCurrencyId := currencyId c.inputAmount.currency
      outputCurrencyId := currencyId c.outputAmount.currency
      isUniswapXOrder := isUniswapXOrderResult result
      tradeType := .EXACT_INPUT
      inputCurrencyAmountRaw := some (toString c.inputAmount.quotient)
      expectedOutputCurrencyAmountRaw := some (toString c.outputAmount.quotient)
      minimumOutputCurrencyAmountRaw := some (toString (c.minimumAmountOutQuot allowedSlippage))
      maximumInputCurrencyAmountRaw := none
      outputCurrencyAmountRaw := none
      expectedInputCurrencyAmountRaw := none }
  else
    { type := .Swap
      inputCurrencyId := currencyId c.inputAmount.currency
      outputCurrencyId := currencyId c.outputAmount.currency
      isUniswapXOrder := isUniswapXOrderResult result
      tradeType := .EXACT_OUTPUT
      inputCurrencyAmountRaw := none
      expectedOutputCurrencyAmountRaw := none
      minimumOutputCurrencyAmountRaw := none
      maximumInputCurrencyAmountRaw := some (toString (c.maximumAmountInQuot allowedSlippage))
      outputCurrencyAmountRaw := some (toString c.outputAmount.quotient)
      expectedInputCurrencyAmountRaw := some (toString c.inputAmount.quotient) }

/-! ### Stores (external append-only state) -/

/-- A chain id (`UniverseChainId` is a numeric enum). -/
abbrev UniverseChainId := Nat

/-- The record appended to the order store by `addOrder`.  The source casts
`supportedConnectedChainId as UniverseChainId` even though the hook value may
be `undefined`, so the recorded chain id is kept optional here, holding
exactly the captured hook value. -/
structure UniswapXOrderDetails where
  offerer : String
  orderHash : String
  chainId : Option UniverseChainId
  expiry : Nat
  swapInfo : TransactionInfo
  encodedOrder : String
  offchainOrderType : OffchainOrderType
deriving Repr, DecidableEq

/-- The record appended to the transaction store by
`addTransaction(response, info, deadline)`.  The adder itself lives in
`state/transactions/hooks` (outside this repository); a fresh record starts
in the `Pending` lifecycle status. -/
structure TransactionDetails where
  hash : String
  info : TransactionInfo
  deadline : Option Nat
  status : TransactionStatus
deriving Repr, DecidableEq

/-- The two external stores the swap callback can append to. -/
structure Stores where
  orders : List UniswapXOrderDetails
  transactions : List TransactionDetails
deriving Repr, DecidableEq

/-! ### The swap callback -/

/-- The distinct error signals of the swap callback: one per validation
failure (with the exact thrown messages as reference), plus propagated
execution-strategy failures. -/
inductive SwapCallbackError where
  /-- thrown as `missing trade` -/
  | missingTrade
  /-- thrown as `wallet must be connected to swap` -/
  | walletNotConnected
  /-- thrown as `missing swap chainId` -/
  | missingSwapChainId
  /-- thrown as `non EVM chain in legacy limits flow` -/
  | nonEVMChain
  /-- thrown as `wallet must be connected to correct chain to swap` -/
  | wrongChain
  /-- any error raised by the invoked execution strategy, propagated unchanged -/
  | strategy (e : String)
deriving Repr, DecidableEq

/-- The account state read from `useAccount`. -/
structure AccountState where
  isConnected : Bool
  address : Option String
deriving Repr, DecidableEq

/-- Everything the callback closure captured at hook time, together with the
outcomes of its two awaited external calls:

* `selectChain c` is the boolean result of `await selectChain(c)`;
* `swapCallbackResult` is the outcome of `await swapCallback()` for the
  strategy selected at hook time (`uniswapXSwapCallback` for a UniswapX
  trade, `universalRouterSwapCallback` otherwise) — either a propagated
  strategy error or a `SwapResult`;
* `isEVMChain` is the external chain-family predicate from
  `uniswap/src/features/platforms/utils/chains`. -/
structure SwapEnv where
  trade : Option InterfaceTrade
  account : AccountState
  swapChainId : Option UniverseChainId
  supportedConnectedChainId : Option UniverseChainId
  allowedSlippage : Percent
  isEVMChain : UniverseChainId → Bool
  selectChain : UniverseChainId → Bool
  swapCallbackResult : Except String SwapResult

/-- JavaScript truthiness of `account.address` (an optional string):
`!account.address` holds when the address is `undefined` or the empty
string. -/
def addressFalsy : Option String → Bool
  | none => true
  | some s => s = ""

/-- The validation phase of one callback invocation: the `if / else if`
chain at the top of the returned async function, in source order (trade
present; `!account.isConnected || !account.address`; `swapChainId` present;
`isEVMChain(swapChainId)`; connected-chain match, with a single
`selectChain(swapChainId)` attempt when it differs).  On success it yields
the values the rest of the body uses: the narrowed `trade`, the narrowed
`account.address` and the narrowed `swapChainId`. -/
def swapValidate (env : SwapEnv) :
    Except SwapCallbackError (InterfaceTrade × String × UniverseChainId) :=
  match env.trade with
  | none => .error .missingTrade
  | some trade =>
    if ¬ env.account.isConnected then .error .walletNotConnected
    else
      match env.account.address with
      | none => .error .walletNotConnected
      | some address =>
        if address = "" then .error .walletNotConnected
        else
          match env.swapChainId with
          | none => .error .missingSwapChainId
          | some swapChainId =>
            if ¬ env.isEVMChain swapChainId then .error .nonEVMChain
            else
              if (env.supportedConnectedChainId = none ∨
                  env.supportedConnectedChainId ≠ some swapChainId) ∧
                  ¬ env.selectChain swapChainId then
                .error .wrongChain
              else
                .ok (trade, address, swapChainId)

/-- The order record built in the `UniswapX` / `UniswapXv2` arms of the
switch on `result.type`.  Note two closure facts of the source: `chainId` is
the captured `supportedConnectedChainId` (cast `as UniverseChainId`), not
the validated `swapChainId`, and `offchainOrderType` is the ternary
`isUniswapXTrade(trade) ? trade.offchainOrderType : OffchainOrderType.DUTCH_AUCTION`. -/
def buildOrderDetails (env : SwapEnv) (trade : InterfaceTrade) (address : String)
    (response : UniswapXOrderResponse) (swapInfo : TransactionInfo) : UniswapXOrderDetails :=
  { offerer := address
    orderHash := response.orderHash
    chainId := env.supportedConnectedChainId
    expiry := response.deadline
    swapInfo := swapInfo
    encodedOrder := response.encodedOrder
    offchainOrderType :=
      if isUniswapXTrade (some trade) then
        match trade with
        | .uniswapX _ t => t
        | .uniswapXv2 _ t => t
        | .classic _ _ => OffchainOrderType.DUTCH_AUCTION
      else OffchainOrderType.DUTCH_AUCTION }

/-- One invocation of the callback returned by `useSwapCallback`, from the
captured environment and the current store contents, to the settled outcome
(thrown error or returned `SwapResult`) and the store contents afterwards:
the validation chain (`swapValidate`), then the awaited strategy call, then
the `swapInfo` construction and the switch on `result.type` appending one
record to one store (`addOrder` for `UniswapX` / `UniswapXv2`,
`addTransaction(result.response, swapInfo, result.deadline?.toNumber())`
in the default arm). -/
def swapCallbackRun (env : SwapEnv) (st : Stores) :
    Except SwapCallbackError SwapResult × Stores :=
  match swapValidate env with
  | .error e => (.error e, st)
  | .ok (trade, address, _swapChainId) =>
    match env.swapCallbackResult with
    | .error e => (.error (.strategy e), st)
    | .ok result =>
      let swapInfo := buildSwapInfo trade env.allowedSlippage result
      match result with
      | .uniswapX response | .uniswapXv2 response =>
        (.ok result,
          { st with orders := st.orders ++ [buildOrderDetails env trade address response swapInfo] })
      | .classic response deadline =>
        (.ok result,
          { st with transactions := st.transactions ++
              [{ hash := response.hash
                 info := swapInfo
                 deadline := deadline
                 status := .Pending }] })

/-! ### Swap transaction status (`useSwapTransactionStatus`) -/

/-- `useTransaction` from `state/transactions/hooks` (external lookup store):
synchronous read of the transaction record with the given hash, or nothing
when no hash is supplied or no record matches. -/
def useTransaction (transactions : List TransactionDetails) (hash : Option String) :
    Option TransactionDetails :=
  match hash with
  | none => none
  | some h => transactions.find? (fun t => t.hash = h)

/-- `useSwapTransactionStatus`: queries the transaction store with the hash
of a classic result (`swapResult?.type === TradeFillType.Classic ?
swapResult.response.hash : undefined`) and returns the record status, or
nothing.  A pure read over the store state. -/
def useSwapTransactionStatus (st : Stores) (swapResult : Option SwapResult) :
    Option TransactionStatus :=
  let transaction := useTransaction st.transactions
    (match swapResult with
     | some (.classic response _) => some response.hash
     | _ => none)
  match transaction with
  | none => none
  | some t => some t.status

/-! ### Wagmi configuration: RPC endpoint ordering -/

/-- One endpoint category of a chain record: its list of HTTP URLs. -/
structure RpcCategory where
  http : List String
deriving Repr, DecidableEq

/-- The endpoint-category record `chain.rpcUrls`: the four categories in
priority order (`interface`, `default`, `public`, `fallback`), each possibly
absent. -/
structure RpcUrls where
  interface : Option RpcCategory
  default : Option RpcCategory
  public : Option RpcCategory
  fallback : Option RpcCategory
deriving Repr, DecidableEq

/-- The part of `getChainInfo`'s chain record that `orderedTransportUrls`
reads. -/
structure ChainInfo where
  rpcUrls : RpcUrls
deriving Repr, DecidableEq

/-- `Array.from(new Set(xs))` on a list already filtered: a JavaScript `Set`
iterates in insertion order, so duplicates are dropped keeping the first
occurrence.  `seen` accumulates the elements already emitted. -/
def dedupKeepFirst (seen : List String) : List String → List String
  | [] => []
  | x :: xs =>
    if x ∈ seen then dedupKeepFirst seen xs
    else x :: dedupKeepFirst (x :: seen) xs

/-- `orderedTransportUrls`: concatenate the `interface`, `default`, `public`
and `fallback` HTTP URL lists in that order (each `?? []` when absent),
filter falsy entries (`filter(Boolean)`: for strings, drop the empty
string), and deduplicate keeping the first occurrence. -/
def orderedTransportUrls (chain : ChainInfo) : List String :=
  let orderedRpcUrls :=
    ((chain.rpcUrls.interface.map (fun c => c.http)).getD []) ++
    ((chain.rpcUrls.default.map (fun c => c.http)).getD []) ++
    ((chain.rpcUrls.public.map (fun c => c.http)).getD []) ++
    ((chain.rpcUrls.fallback.map (fun c => c.http)).getD [])
  dedupKeepFirst [] (orderedRpcUrls.filter (fun s => s ≠ ""))

/-! ### Wagmi configuration: default fetch-response handler -/

/-- Severity of an emitted log entry. -/
inductive LogLevel where
  | warn
  | error
deriving Repr, DecidableEq

/-- One structured log entry as emitted through `logger.warn` /
`logger.error`: severity, the source-location metadata (file tag and
function tag, positional for `warn`, under `tags` for `error`), the message,
and the `extra` payload (chain id and URL). -/
structure LogEntry where
  level : LogLevel
  fileTag : String
  functionTag : String
  message : String
  chainId : Nat
  url : String
deriving Repr, DecidableEq

/-- The part of a fetch `Response` the handler reads: the HTTP status. -/
structure FetchResponse where
  status : Nat
deriving Repr, DecidableEq

/-- The ENS registry contract entry of a viem chain
(`chain.contracts?.ensRegistry?.address`). -/
structure EnsRegistry where
  address : String
deriving Repr, DecidableEq

/-- The `contracts` record of a viem chain. -/
structure ChainContracts where
  ensRegistry : Option EnsRegistry
deriving Repr, DecidableEq

/-- A viem `Chain` as read by this repository: id, name and optional
contracts record. -/
structure ViemChain where
  id : Nat
  name : String
  contracts : Option ChainContracts
deriving Repr, DecidableEq

/-- `defaultOnFetchResponse`: nothing on HTTP status 200; on any other
status, exactly one log entry — `logger.warn` when `isTestnetChain(chain.id)`
holds, `logger.error` otherwise — carrying the chain id and URL and tagged
with the source location (file `wagmiConfig.ts`, function `client`).
`isTestnetChain` is an external chain-metadata predicate, supplied as a
parameter.  The returned list is the sequence of emitted log entries. -/
def defaultOnFetchResponse (isTestnetChain : Nat → Bool)
    (response : FetchResponse) (chain : ViemChain) (url : String) : List LogEntry :=
  if response.status ≠ 200 then
    let message := "RPC provider returned non-200 status: " ++ toString response.status
    if isTestnetChain chain.id then
      [{ level := .warn, fileTag := "wagmiConfig.ts", functionTag := "client"
         message := message, chainId := chain.id, url := url }]
    else
      [{ level := .error, fileTag := "wagmiConfig.ts", functionTag := "client"
         message := message, chainId := chain.id, url := url }]
  else
    []

/-! ### Ethers provider adapter (`apps/web/src/hooks/useEthersProvider.ts`) -/

/-- An opaque viem transport handle. -/
abbrev Transport := Nat

/-- A viem `Client` as the adapter sees it: the object identity of the
client (the key of the `WeakMap` cache), its chain — optional at runtime,
the code itself guards `chain ? … : …` — and its transport. -/
structure WebClient where
  handle : Nat
  chain : Option ViemChain
  transport : Transport
deriving Repr, DecidableEq

/-- The ethers network object built for the provider: chain id, name, and
the optional ENS registry address. -/
structure EthersNetwork where
  chainId : Nat
  name : String
  ensAddress : Option String
deriving Repr, DecidableEq

/-- An ethers `Web3Provider` instance: `providerId` is the allocation
identity of one `new Web3Provider(...)` construction, so two equal
`providerId`s mean the same instance. -/
structure Web3Provider where
  providerId : Nat
  transport : Transport
  network : EthersNetwork
deriving Repr, DecidableEq

/-- The module-level `providers` `WeakMap`: associations from client handle
to the cached provider, plus the next fresh allocation identity. -/
structure ProviderCache where
  entries : List (Nat × Web3Provider)
  nextId : Nat
deriving Repr, DecidableEq

/-- The empty provider cache at module load. -/
def ProviderCache.empty : ProviderCache :=
  { entries := [], nextId := 0 }

/-- Outcome of a JavaScript call: a normal return, or a thrown `TypeError`
(property access on `undefined`). -/
inductive JsResult (α : Type) where
  | ok (val : α)
  | typeError
deriving Repr, DecidableEq

/-- `clientToProvider(client?, chainId?)`, with the `providers` cache made
explicit: returns the outcome together with the cache afterwards.

Mirrors the source line by line: no client returns `undefined`; then
`const ensAddress = chain.contracts?.ensRegistry?.address` reads a property
of `chain` *before* the `chain ? …` guard, so a client whose `chain` is
`undefined` throws a `TypeError` here — the `chainId`-fallback network
(`{ chainId, name: 'Unsupported' }`) and the `if (!network)` return on the
following lines are unreachable.  With a chain present, the network is
built, the cache is consulted (`providers.has`/`providers.get`), and on a
miss a fresh `Web3Provider` is constructed and stored. -/
def clientToProvider (st : ProviderCache) (client : Option WebClient) (chainId : Option Nat) :
    JsResult (Option Web3Provider) × ProviderCache :=
  match client with
  | none => (.ok none, st)
  | some c =>
    match c.chain with
    | none => (.typeError, st)
    | some chain =>
      let ensAddress := chain.contracts.bind (fun cts => cts.ensRegistry.map (fun r => r.address))
      let _ := chainId
      let network : EthersNetwork := { chainId := chain.id, name := chain.name, ensAddress := ensAddress }
      match st.entries.find? (fun e => e.1 = c.handle) with
      | some e => (.ok (some e.2), st)
      | none =>
        let provider : Web3Provider :=
          { providerId := st.nextId, transport := c.transport, network := network }
        (.ok (some provider), { entries := (c.handle, provider) :: st.entries, nextId := st.nextId + 1 })

/-- `useEthersProvider({ chainId })`: adapts
`account.chainId !== chainId ? disconnectedClient : (client ?? disconnectedClient)`,
where `client` is the connected connector client and `disconnectedClient`
the read-only `useClient` result for the requested chain. -/
def useEthersProvider (st : ProviderCache) (accountChainId : Option Nat) (chainId : Option Nat)
    (client : Option WebClient) (disconnectedClient : Option WebClient) :
    JsResult (Option Web3Provider) × ProviderCache :=
  clientToProvider st
    (if accountChainId ≠ chainId then disconnectedClient
     else
       match client with
       | some c => some c
       | none => disconnectedClient)
    chainId

/-- `useEthersWeb3Provider({ chainId })`: adapts the connected connector
client only. -/
def useEthersWeb3Provider (st : ProviderCache) (chainId : Option Nat)
    (client : Option WebClient) : JsResult (Option Web3Provider) × ProviderCache :=
  clientToProvider st client chainId

/-! ### Derived observations used in statements -/

/-- The `TransactionInfo`s of the records a run appended on top of the
original store contents `st`: the new order records' `swapInfo`s followed by
the new transaction records' `info`s. -/
def appendedInfos (st after : Stores) : List TransactionInfo :=
  (after.orders.drop st.orders.length).map (fun o => o.swapInfo) ++
  (after.transactions.drop st.transactions.length).map (fun t => t.info)

/-! ### Concrete fixtures (used by witnesses and concrete evaluations) -/

/-- An exact-input trade core: 100 units in, 200 expected out, 190 minimum
out under any tolerance, 110 maximum in. -/
def commonInFix : TradeCommon :=
  { tradeType := .EXACT_INPUT
    inputAmount := { currency := { cid := "tokenIn" }, quotient := 100 }
    outputAmount := { currency := { cid := "tokenOut" }, quotient := 200 }
    minimumAmountOutQuot := fun _ => 190
    maximumAmountInQuot := fun _ => 110 }

/-- An exact-output trade core with the same amounts. -/
def commonOutFix : TradeCommon :=
  { commonInFix with tradeType := .EXACT_OUTPUT }

/-- A UniswapX v2-Dutch trade over the exact-input core. -/
def tradeXFix : InterfaceTrade :=
  .uniswapX commonInFix .DUTCH_V2

/-- A classic trade with a swap fee (0.25 percent, raw amount 25). -/
def tradeClassicFix : InterfaceTrade :=
  .classic commonInFix (some { percent := { num := 1, den := 400 }, amount := 25, recipient := "0xfeeRecipient" })

/-- A slippage tolerance fixture. -/
def slipFix : Percent :=
  { num := 1, den := 200 }

/-- A UniswapX order response fixture. -/
def xRespFix : UniswapXOrderResponse :=
  { orderHash := "0xorderhash", deadline := 1234, encodedOrder := "0xencoded" }

/-- Empty stores. -/
def storesEmpty : Stores :=
  { orders := [], transactions := [] }

/-- An environment exercising the chain-switch path: wallet connected on
chain 1, swap targeted at chain 10, `selectChain` succeeding, UniswapX
strategy returning an order result. -/
def envSwitchFix : SwapEnv :=
  { trade := some tradeXFix
    account := { isConnected := true, address := some "0xabc" }
    swapChainId := some 10
    supportedConnectedChainId := some 1
    allowedSlippage := slipFix
    isEVMChain := fun _ => true
    selectChain := fun _ => true
    swapCallbackResult := .ok (.uniswapX xRespFix) }

/-- An environment with no trade supplied (and a disconnected wallet). -/
def envNoTradeFix : SwapEnv :=
  { envSwitchFix with trade := none, account := { isConnected := false, address := none } }

/-- An aligned-chain environment whose classic strategy succeeds. -/
def envClassicFix : SwapEnv :=
  { envSwitchFix with
    trade := some tradeClassicFix
    swapChainId := some 1
    supportedConnectedChainId := some 1
    swapCallbackResult := .ok (.classic { hash := "0xtxhash" } (some 5678)) }

/-- The endpoint-category record of the claimed example:
interface `[a, b]`, default `[b, c]`, public `[d]`, fallback `[]`. -/
def chainInfoFix : ChainInfo :=
  { rpcUrls :=
      { interface := some { http := ["a", "b"] }
        default := some { http := ["b", "c"] }
        public := some { http := ["d"] }
        fallback := some { http := [] } } }

/-- A production chain fixture (viem shape). -/
def chainMainFix : ViemChain :=
  { id := 1, name := "Ethereum"
    contracts := some { ensRegistry := some { address := "0xens" } } }

/-- A client for `chainMainFix`. -/
def clientMainFix : WebClient :=
  { handle := 1, chain := some chainMainFix, transport := 3 }

/-- A client whose `chain` is `undefined`. -/
def clientNoChainFix : WebClient :=
  { handle := 0, chain := none, transport := 7 }

/-- A concrete `TransactionInfo` (as recorded for `envClassicFix`). -/
def infoFix : TransactionInfo :=
  buildSwapInfo tradeClassicFix slipFix (.classic { hash := "0xtxhash" } (some 5678))

/-- A transaction store holding one settled record with hash `0xtxhash`. -/
def storesOneTxFix : Stores :=
  { orders := []
    transactions := [{ hash := "0xtxhash", info := infoFix, deadline := some 5678, status := .Success }] }

/-! ## Helper lemmas about the swap callback -/

theorem swapCallbackRun_of_validate_error (env : SwapEnv) (st : Stores) (e : SwapCallbackError)
    (h : swapValidate env = .error e) : swapCallbackRun env st = (.error e, st) := by
  simp [swapCallbackRun, h]

theorem swapValidate_eq_missingTrade (env : SwapEnv) (h : env.trade = none) :
    swapValidate env = .error .missingTrade := by
  simp [swapValidate, h]

theorem swapValidate_eq_walletNotConnected (env : SwapEnv) (trade : InterfaceTrade)
    (h : env.trade = some trade)
    (hw : env.account.isConnected = false ∨ addressFalsy env.account.address = true) :
    swapValidate env = .error .walletNotConnected := by
  rcases hw with hc | ha
  · simp [swapValidate, h, hc]
  · cases hb : env.account.isConnected
    · simp [swapValidate, h, hb]
    · rcases haddr : env.account.address with _ | s
      · simp [swapValidate, h, hb, haddr]
      · have hs : s = "" := by simpa [addressFalsy, haddr] using ha
        simp [swapValidate, h, hb, haddr, hs]

theorem swapValidate_eq_missingSwapChainId (env : SwapEnv) (trade : InterfaceTrade)
    (address : String) (h : env.trade = some trade) (hc : env.account.isConnected = true)
    (ha : env.account.address = some address) (hne : address ≠ "")
    (hs : env.swapChainId = none) :
    swapValidate env = .error .missingSwapChainId := by
  simp [swapValidate, h, hc, ha, hne, hs]

theorem swapValidate_eq_nonEVMChain (env : SwapEnv) (trade : InterfaceTrade)
    (address : String) (c : UniverseChainId) (h : env.trade = some trade)
    (hc : env.account.isConnected = true) (ha : env.account.address = some address)
    (hne : address ≠ "") (hs : env.swapChainId = some c) (hev : env.isEVMChain c = false) :
    swapValidate env = .error .nonEVMChain := by
  simp [swapValidate, h, hc, ha, hne, hs, hev]

theorem swapValidate_eq_wrongChain (env : SwapEnv) (trade : InterfaceTrade)
    (address : String) (c : UniverseChainId) (h : env.trade = some trade)
    (hc : env.account.isConnected = true) (ha : env.account.address = some address)
    (hne : address ≠ "") (hs : env.swapChainId = some c) (hev : env.isEVMChain c = true)
    (hmm : env.supportedConnectedChainId ≠ some c) (hsel : env.selectChain c = false) :
    swapValidate env = .error .wrongChain := by
  simp [swapValidate, h, hc, ha, hne, hs, hev, hmm, hsel]

theorem swapValidate_eq_ok (env : SwapEnv) (trade : InterfaceTrade)
    (address : String) (c : UniverseChainId) (h : env.trade = some trade)
    (hc : env.account.isConnected = true) (ha : env.account.address = some address)
    (hne : address ≠ "") (hs : env.swapChainId = some c) (hev : env.isEVMChain c = true)
    (hok : env.supportedConnectedChainId = some c ∨ env.selectChain c = true) :
    swapValidate env = .ok (trade, address, c) := by
  rcases hok with hsc | hsel
  · simp [swapValidate, h, hc, ha, hne, hs, hev, hsc]
  · simp [swapValidate, h, hc, ha, hne, hs, hev, hsel]

theorem swapValidate_ok_inv (env : SwapEnv) (t : InterfaceTrade) (a : String)
    (c : UniverseChainId) (h : swapValidate env = .ok (t, a, c)) :
    env.trade = some t ∧ env.account.address = some a ∧ env.swapChainId = some c := by
  unfold swapValidate at h
  repeat' split at h
  all_goals simp_all

theorem swapCallbackRun_error_snd (env : SwapEnv) (st : Stores) (e : SwapCallbackError)
    (h : (swapCallbackRun env st).1 = .error e) : (swapCallbackRun env st).2 = st := by
  unfold swapCallbackRun at *
  rcases hv : swapValidate env with e' | ⟨trade, address, c⟩
  · simp [hv]
  · rcases hr : env.swapCallbackResult with e'' | result
    · simp [hv, hr]
    · rcases result with resp | resp | ⟨resp, dl⟩ <;> simp [hv, hr] at h

/-! ## Claims -/

/-- Claim C1: every invocation of the swap callback validates fail-fast in
the fixed order — trade presence, wallet connection with a (truthy) address,
resolvable target chain, EVM chain family, chain match with a single switch
attempt — each failing condition raising its own distinct error; a strategy
error propagates (wrapped in the `strategy` constructor, i.e. unchanged to
the caller); and in every error case neither the order store nor the
transaction store receives a record. -/
theorem claim_C1 (env : SwapEnv) (st : Stores) :
    (∀ e, (swapCallbackRun env st).1 = .error e → (swapCallbackRun env st).2 = st) ∧
    (env.trade = none → swapCallbackRun env st = (.error .missingTrade, st)) ∧
    (∀ trade, env.trade = some trade →
      (env.account.isConnected = false ∨ addressFalsy env.account.address = true) →
      swapCallbackRun env st = (.error .walletNotConnected, st)) ∧
    (∀ trade address, env.trade = some trade →
      env.account.isConnected = true → env.account.address = some address → address ≠ "" →
      env.swapChainId = none →
      swapCallbackRun env st = (.error .missingSwapChainId, st)) ∧
    (∀ trade address c, env.trade = some trade →
      env.account.isConnected = true → env.account.address = some address → address ≠ "" →
      env.swapChainId = some c → env.isEVMChain c = false →
      swapCallbackRun env st = (.error .nonEVMChain, st)) ∧
    (∀ trade address c, env.trade = some trade →
      env.account.isConnected = true → env.account.address = some address → address ≠ "" →
      env.swapChainId = some c → env.isEVMChain c = true →
      env.supportedConnectedChainId ≠ some c → env.selectChain c = false →
      swapCallbackRun env st = (.error .wrongChain, st)) ∧
    (∀ trade address c e, env.trade = some trade →
      env.account.isConnected = true → env.account.address = some address → address ≠ "" →
      env.swapChainId = some c → env.isEVMChain c = true →
      (env.supportedConnectedChainId = some c ∨ env.selectChain c = true) →
      env.swapCallbackResult = .error e →
      swapCallbackRun env st = (.error (.strategy e), st)) := by
  refine ⟨fun e h => swapCallbackRun_error_snd env st e h, ?_, ?_, ?_, ?_, ?_, ?_⟩
  · intro h
    exact swapCallbackRun_of_validate_error env st _ (swapValidate_eq_missingTrade env h)
  · intro trade h hw
    exact swapCallbackRun_of_validate_error env st _
      (swapValidate_eq_walletNotConnected env trade h hw)
  · intro trade address h hc ha hne hs
    exact swapCallbackRun_of_validate_error env st _
      (swapValidate_eq_missingSwapChainId env trade address h hc ha hne hs)
  · intro trade address c h hc ha hne hs hev
    exact swapCallbackRun_of_validate_error env st _
      (swapValidate_eq_nonEVMChain env trade address c h hc ha hne hs hev)
  · intro trade address c h hc ha hne hs hev hmm hsel
    exact swapCallbackRun_of_validate_error env st _
      (swapValidate_eq_wrongChain env trade address c h hc ha hne hs hev hmm hsel)
  · intro trade address c e h hc ha hne hs hev hok hr
    have hv := swapValidate_eq_ok env trade address c h hc ha hne hs hev hok
    simp [swapCallbackRun, hv, hr]

/-- Witness for C1: with no trade (and a disconnected wallet) the invocation
fails with the missing-trade error and the stores are unchanged; with a
connected wallet on chain 1, target chain 10 and a failing switch it fails
with the wrong-chain error and the stores are unchanged. -/
theorem claim_C1_witness :
    swapCallbackRun envNoTradeFix storesEmpty = (.error .missingTrade, storesEmpty) ∧
    swapCallbackRun { envSwitchFix with selectChain := fun _ => false } storesEmpty =
      (.error .wrongChain, storesEmpty) := by
  constructor
  · exact (claim_C1 envNoTradeFix storesEmpty).2.1 rfl
  · exact (claim_C1 { envSwitchFix with selectChain := fun _ => false } storesEmpty).2.2.2.2.2.1
      tradeXFix "0xabc" 10 rfl rfl rfl (by decide) rfl rfl (by decide) rfl

/-- Claim C2: a successful swap invocation appends exactly one record to
exactly one store, selected by the tag of the returned `SwapResult` — an
off-chain-order result appends one order record and no transaction record,
any other result appends one transaction record and no order record — and
the returned value is the strategy's raw `SwapResult` unchanged. -/
theorem claim_C2 (env : SwapEnv) (st : Stores) (r : SwapResult)
    (h : (swapCallbackRun env st).1 = .ok r) :
    env.swapCallbackResult = .ok r ∧
    (isUniswapXOrderResult r = true →
      (∃ rec, (swapCallbackRun env st).2.orders = st.orders ++ [rec]) ∧
      (swapCallbackRun env st).2.transactions = st.transactions) ∧
    (isUniswapXOrderResult r = false →
      (∃ rec, (swapCallbackRun env st).2.transactions = st.transactions ++ [rec]) ∧
      (swapCallbackRun env st).2.orders = st.orders) := by
  unfold swapCallbackRun at h ⊢
  rcases hv : swapValidate env with e | ⟨trade, address, c⟩
  · rw [hv] at h
    simp at h
  · rw [hv] at h
    rcases hr : env.swapCallbackResult with e | result
    · rw [hr] at h
      simp at h
    · rw [hr] at h
      rcases result with resp | resp | ⟨resp, dl⟩ <;> simp at h <;> subst h <;>
        simp [isUniswapXOrderResult]

/-- Witness for C2: in the aligned classic environment the invocation
succeeds with the strategy's classic result. -/
theorem claim_C2_witness :
    envClassicFix.swapCallbackResult = .ok (.classic { hash := "0xtxhash" } (some 5678)) ∧
    (∃ rec, (swapCallbackRun envClassicFix storesEmpty).2.transactions =
      storesEmpty.transactions ++ [rec]) ∧
    (swapCallbackRun envClassicFix storesEmpty).2.orders = storesEmpty.orders := by
  have h := claim_C2 envClassicFix storesEmpty (.classic { hash := "0xtxhash" } (some 5678)) rfl
  exact ⟨h.1, (h.2.2 rfl).1, (h.2.2 rfl).2⟩

/-- Claim C3: in every successful swap invocation the single recorded
`TransactionInfo` is `buildSwapInfo` of the trade, tolerance and result, and
that object contains, for an exact-input trade, exactly the exact-input /
expected-output / minimum-output (slippage-derived) amounts with the three
exact-output fields absent, and for an exact-output trade exactly the
maximum-input (slippage-derived) / exact-output / expected-input amounts
with the three exact-input fields absent — so the two field sets never
occur together. -/
theorem claim_C3 (env : SwapEnv) (st : Stores) (trade : InterfaceTrade) (r : SwapResult)
    (htrade : env.trade = some trade) (h : (swapCallbackRun env st).1 = .ok r) :
    appendedInfos st (swapCallbackRun env st).2 =
      [buildSwapInfo trade env.allowedSlippage r] ∧
    (trade.common.tradeType = .EXACT_INPUT →
      (buildSwapInfo trade env.allowedSlippage r).inputCurrencyAmountRaw =
        some (toString trade.common.inputAmount.quotient) ∧
      (buildSwapInfo trade env.allowedSlippage r).expectedOutputCurrencyAmountRaw =
        some (toString trade.common.outputAmount.quotient) ∧
      (buildSwapInfo trade env.allowedSlippage r).minimumOutputCurrencyAmountRaw =
        some (toString (trade.common.minimumAmountOutQuot env.allowedSlippage)) ∧
      (buildSwapInfo trade env.allowedSlippage r).maximumInputCurrencyAmountRaw = none ∧
      (buildSwapInfo trade env.allowedSlippage r).outputCurrencyAmountRaw = none ∧
      (buildSwapInfo trade env.allowedSlippage r).expectedInputCurrencyAmountRaw = none) ∧
    (trade.common.tradeType = .EXACT_OUTPUT →
      (buildSwapInfo trade env.allowedSlippage r).maximumInputCurrencyAmountRaw =
        some (toString (trade.common.maximumAmountInQuot env.allowedSlippage)) ∧
      (buildSwapInfo trade env.allowedSlippage r).outputCurrencyAmountRaw =
        some (toString trade.common.outputAmount.quotient) ∧
      (buildSwapInfo trade env.allowedSlippage r).expectedInputCurrencyAmountRaw =
        some (toString trade.common.inputAmount.quotient) ∧
      (buildSwapInfo trade env.allowedSlippage r).inputCurrencyAmountRaw = none ∧
      (buildSwapInfo trade env.allowedSlippage r).expectedOutputCurrencyAmountRaw = none ∧
      (buildSwapInfo trade env.allowedSlippage r).minimumOutputCurrencyAmountRaw = none) := by
  refine ⟨?_, ?_, ?_⟩
  · unfold swapCallbackRun at h ⊢
    rcases hv : swapValidate env with e | ⟨t, a, c⟩
    · rw [hv] at h
      simp at h
    · rw [hv] at h
      have ht : t = trade := by
        have h1 := (swapValidate_ok_inv env t a c hv).1
        rw [htrade] at h1
        exact Option.some_inj.mp h1.symm
      subst ht
      rcases hr : env.swapCallbackResult with e | result
      · rw [hr] at h
        simp at h
      · rw [hr] at h
        rcases result with resp | resp | ⟨resp, dl⟩ <;> simp at h <;> subst h <;>
          simp [appendedInfos, buildOrderDetails, List.drop_left, List.drop_length]
  · intro hd
    simp [buildSwapInfo, hd]
  · intro hd
    simp [buildSwapInfo, hd]

/-- Witness for C3: the aligned classic environment records exactly the
exact-input info object, whose slippage-derived minimum output is `190`. -/
theorem claim_C3_witness :
    appendedInfos storesEmpty (swapCallbackRun envClassicFix storesEmpty).2 =
      [buildSwapInfo tradeClassicFix envClassicFix.allowedSlippage
        (.classic { hash := "0xtxhash" } (some 5678))] ∧
    (buildSwapInfo tradeClassicFix envClassicFix.allowedSlippage
      (.classic { hash := "0xtxhash" } (some 5678))).minimumOutputCurrencyAmountRaw =
        some "190" := by
  have h := claim_C3 envClassicFix storesEmpty tradeClassicFix
    (.classic { hash := "0xtxhash" } (some 5678)) rfl rfl
  refine ⟨h.1, ?_⟩
  rw [(h.2.1 rfl).2.2.1]
  rfl

/-- Claim C4, evaluation at the failing input: in the chain-switch
invocation (wallet on chain 1, target chain 10, switch succeeding) the
swap succeeds and the order record does capture the offerer, order hash,
expiry, encoded order and the trade's off-chain-order type — but its
`chainId` is the stale closure value `some 1`, not the resolved target
chain `10` of the swap, contradicting the claim (and the source's own
comment that the recorded chain id was validated and switched). -/
theorem claim_C4_eval :
    (swapCallbackRun envSwitchFix storesEmpty).1 = .ok (.uniswapX xRespFix) ∧
    envSwitchFix.swapChainId = some 10 ∧
    envSwitchFix.supportedConnectedChainId = some 1 ∧
    ((swapCallbackRun envSwitchFix storesEmpty).2.orders.map (fun o => o.chainId)) = [some 1] ∧
    ((swapCallbackRun envSwitchFix storesEmpty).2.orders.map (fun o => o.offerer)) = ["0xabc"] ∧
    ((swapCallbackRun envSwitchFix storesEmpty).2.orders.map (fun o => o.orderHash)) =
      ["0xorderhash"] ∧
    ((swapCallbackRun envSwitchFix storesEmpty).2.orders.map (fun o => o.expiry)) = [1234] ∧
    ((swapCallbackRun envSwitchFix storesEmpty).2.orders.map (fun o => o.encodedOrder)) =
      ["0xencoded"] ∧
    ((swapCallbackRun envSwitchFix storesEmpty).2.orders.map (fun o => o.offchainOrderType)) =
      [.DUTCH_V2] :=
  ⟨rfl, rfl, rfl, rfl, rfl, rfl, rfl, rfl, rfl⟩

/-! ## Helper lemmas about first-occurrence deduplication -/

theorem mem_dedupKeepFirst (a : String) : ∀ (l seen : List String),
    a ∈ dedupKeepFirst seen l ↔ a ∈ l ∧ a ∉ seen := by
  intro l
  induction l with
  | nil => intro seen; simp [dedupKeepFirst]
  | cons x xs ih =>
    intro seen
    by_cases hx : x ∈ seen
    · rw [show dedupKeepFirst seen (x :: xs) = dedupKeepFirst seen xs by
        simp [dedupKeepFirst, hx], ih seen]
      constructor
      · rintro ⟨hxs, hs⟩
        exact ⟨List.mem_cons_of_mem _ hxs, hs⟩
      · rintro ⟨hmem, hs⟩
        rcases List.mem_cons.mp hmem with rfl | hxs
        · exact absurd hx hs
        · exact ⟨hxs, hs⟩
    · rw [show dedupKeepFirst seen (x :: xs) = x :: dedupKeepFirst (x :: seen) xs by
        simp [dedupKeepFirst, hx]]
      constructor
      · intro hmem
        rcases List.mem_cons.mp hmem with rfl | hd
        · exact ⟨List.mem_cons_self _ _, hx⟩
        · obtain ⟨hxs, hs⟩ := (ih (x :: seen)).mp hd
          exact ⟨List.mem_cons_of_mem _ hxs, fun hin => hs (List.mem_cons_of_mem _ hin)⟩
      · rintro ⟨hmem, hs⟩
        rcases List.mem_cons.mp hmem with rfl | hxs
        · exact List.mem_cons_self _ _
        · by_cases hax : a = x
          · subst hax
            exact List.mem_cons_self _ _
          · refine List.mem_cons_of_mem _ ((ih (x :: seen)).mpr ⟨hxs, ?_⟩)
            intro hin
            rcases List.mem_cons.mp hin with h1 | h2
            · exact hax h1
            · exact hs h2

theorem nodup_dedupKeepFirst : ∀ (l seen : List String), (dedupKeepFirst seen l).Nodup := by
  intro l
  induction l with
  | nil => intro seen; simp [dedupKeepFirst]
  | cons x xs ih =>
    intro seen
    by_cases hx : x ∈ seen
    · simpa [dedupKeepFirst, hx] using ih seen
    · rw [show dedupKeepFirst seen (x :: xs) = x :: dedupKeepFirst (x :: seen) xs by
        simp [dedupKeepFirst, hx]]
      refine List.nodup_cons.mpr ⟨?_, ih (x :: seen)⟩
      intro hmem
      exact ((mem_dedupKeepFirst x xs (x :: seen)).mp hmem).2 (List.mem_cons_self _ _)

theorem dedupKeepFirst_sublist : ∀ (l seen : List String), List.Sublist (dedupKeepFirst seen l) l := by
  intro l
  induction l with
  | nil => intro seen; simp [dedupKeepFirst]
  | cons x xs ih =>
    intro seen
    by_cases hx : x ∈ seen
    · rw [show dedupKeepFirst seen (x :: xs) = dedupKeepFirst seen xs by
        simp [dedupKeepFirst, hx]]
      exact List.Sublist.cons x (ih seen)
    · rw [show dedupKeepFirst seen (x :: xs) = x :: dedupKeepFirst (x :: seen) xs by
        simp [dedupKeepFirst, hx]]
      exact List.Sublist.cons₂ x (ih (x :: seen))

/-- Claim C5: the RPC endpoint order builder keeps a subsequence of the
interface / default / public / fallback concatenation (so category priority
and first-seen order are preserved), contains no duplicates, contains
exactly the non-empty URLs of the four categories, and on the claimed
example — interface `[a, b]`, default `[b, c]`, public `[d]`, fallback
`[]` — returns `[a, b, c, d]`. -/
theorem claim_C5 :
    (∀ chain : ChainInfo,
      (orderedTransportUrls chain).Nodup ∧
      List.Sublist (orderedTransportUrls chain)
        (((chain.rpcUrls.interface.map (fun c => c.http)).getD []) ++
         ((chain.rpcUrls.default.map (fun c => c.http)).getD []) ++
         ((chain.rpcUrls.public.map (fun c => c.http)).getD []) ++
         ((chain.rpcUrls.fallback.map (fun c => c.http)).getD [])) ∧
      (∀ u, u ∈ orderedTransportUrls chain ↔
        (u ∈ ((chain.rpcUrls.interface.map (fun c => c.http)).getD []) ++
             ((chain.rpcUrls.default.map (fun c => c.http)).getD []) ++
             ((chain.rpcUrls.public.map (fun c => c.http)).getD []) ++
             ((chain.rpcUrls.fallback.map (fun c => c.http)).getD []) ∧ u ≠ ""))) ∧
    orderedTransportUrls chainInfoFix = ["a", "b", "c", "d"] := by
  constructor
  · intro chain
    refine ⟨nodup_dedupKeepFirst _ _, ?_, ?_⟩
    · exact (dedupKeepFirst_sublist _ _).trans (List.filter_sublist _)
    · intro u
      simp only [orderedTransportUrls]
      rw [mem_dedupKeepFirst]
      simp [List.mem_filter]
      tauto
  · rfl

/-- Witness for C5: on the example record the output has no duplicates and
the membership characterization holds at the duplicated URL `b`. -/
theorem claim_C5_witness :
    (orderedTransportUrls chainInfoFix).Nodup ∧
    ("b" ∈ orderedTransportUrls chainInfoFix ↔
      ("b" ∈ ((chainInfoFix.rpcUrls.interface.map (fun c => c.http)).getD []) ++
           ((chainInfoFix.rpcUrls.default.map (fun c => c.http)).getD []) ++
           ((chainInfoFix.rpcUrls.public.map (fun c => c.http)).getD []) ++
           ((chainInfoFix.rpcUrls.fallback.map (fun c => c.http)).getD []) ∧ "b" ≠ "")) :=
  ⟨(claim_C5.1 chainInfoFix).1, (claim_C5.1 chainInfoFix).2.2 "b"⟩

/-- Claim C6, evaluation at the failing input: the adapter is
reference-stable — the first call for a chain-bearing client constructs and
caches a provider, and a second call with the identical client handle
returns the very same instance with the cache unchanged — and a missing
client yields an absent value; but a client lacking chain data combined with
no fallback chain id does not yield an absent value: the
`chain.contracts?.ensRegistry?.address` read throws a `TypeError` before the
`chain ? … : chainId ? …` guard can produce the absent value, contradicting
the claim (and the function's own documented contract of returning
`undefined` when no provider can be created). -/
theorem claim_C6_eval :
    clientToProvider ProviderCache.empty (some clientMainFix) none =
      (.ok (some { providerId := 0, transport := 3,
                   network := { chainId := 1, name := "Ethereum", ensAddress := some "0xens" } }),
       { entries := [(1, { providerId := 0, transport := 3,
                           network := { chainId := 1, name := "Ethereum", ensAddress := some "0xens" } })],
         nextId := 1 }) ∧
    clientToProvider
        { entries := [(1, { providerId := 0, transport := 3,
                            network := { chainId := 1, name := "Ethereum", ensAddress := some "0xens" } })],
          nextId := 1 }
        (some clientMainFix) none =
      (.ok (some { providerId := 0, transport := 3,
                   network := { chainId := 1, name := "Ethereum", ensAddress := some "0xens" } }),
       { entries := [(1, { providerId := 0, transport := 3,
                           network := { chainId := 1, name := "Ethereum", ensAddress := some "0xens" } })],
         nextId := 1 }) ∧
    clientToProvider ProviderCache.empty none none = (.ok none, ProviderCache.empty) ∧
    clientToProvider ProviderCache.empty (some clientNoChainFix) none =
      (.typeError, ProviderCache.empty) :=
  ⟨rfl, rfl, rfl, rfl⟩

/-- Claim C7: the swap status query returns a stored lifecycle status
exactly when the result is a classic (on-chain) outcome whose transaction
hash has a matching record in the transaction store; off-chain-order
results, an absent result and an unknown hash all yield an absent value;
and the answer never depends on the order store (the query also performs no
writes: it is a pure function of the store state). -/
theorem claim_C7 (st : Stores) (r : Option SwapResult) :
    (∀ s, useSwapTransactionStatus st r = some s ↔
      ∃ response deadline t, r = some (.classic response deadline) ∧
        useTransaction st.transactions (some response.hash) = some t ∧ t.status = s) ∧
    (∀ response, r = some (.uniswapX response) → useSwapTransactionStatus st r = none) ∧
    (∀ response, r = some (.uniswapXv2 response) → useSwapTransactionStatus st r = none) ∧
    (r = none → useSwapTransactionStatus st r = none) ∧
    (∀ orders2, useSwapTransactionStatus { st with orders := orders2 } r =
      useSwapTransactionStatus st r) := by
  refine ⟨?_, ?_, ?_, ?_, ?_⟩
  · intro s
    constructor
    · intro h
      rcases r with _ | r0
      · simp [useSwapTransactionStatus, useTransaction] at h
      · rcases r0 with resp | resp | ⟨resp, dl⟩
        · simp [useSwapTransactionStatus, useTransaction] at h
        · simp [useSwapTransactionStatus, useTransaction] at h
        · rcases ht : useTransaction st.transactions (some resp.hash) with _ | t
          · simp [useSwapTransactionStatus, ht] at h
          · simp [useSwapTransactionStatus, ht] at h
            exact ⟨resp, dl, t, rfl, ht, h⟩
    · rintro ⟨response, deadline, t, hr, ht, hs⟩
      subst hr
      simp [useSwapTransactionStatus, ht, hs]
  · intro response hr
    subst hr
    simp [useSwapTransactionStatus, useTransaction]
  · intro response hr
    subst hr
    simp [useSwapTransactionStatus, useTransaction]
  · intro hr
    subst hr
    simp [useSwapTransactionStatus, useTransaction]
  · intro orders2
    simp [useSwapTransactionStatus]

/-- Witness for C7: with one stored record for hash `0xtxhash` the classic
result's status is returned, and a UniswapX result yields an absent value
over the same stores. -/
theorem claim_C7_witness :
    useSwapTransactionStatus storesOneTxFix
      (some (.classic { hash := "0xtxhash" } (some 5678))) = some .Success ∧
    useSwapTransactionStatus storesOneTxFix (some (.uniswapX xRespFix)) = none := by
  constructor
  · exact ((claim_C7 storesOneTxFix (some (.classic { hash := "0xtxhash" } (some 5678)))).1
      .Success).mpr
      ⟨{ hash := "0xtxhash" }, some 5678,
       { hash := "0xtxhash", info := infoFix, deadline := some 5678, status := .Success },
       rfl, rfl, rfl⟩
  · exact (claim_C7 storesOneTxFix (some (.uniswapX xRespFix))).2.1 xRespFix rfl

/-- Claim C8: the default fetch-response handler logs nothing on HTTP
status 200 and, on any other status, logs exactly one entry — at warning
severity on a testnet chain, at error severity on a production chain — with
the chain id and URL attached and tagged with the source location
(`wagmiConfig.ts` / `client`). -/
theorem claim_C8 (isTestnetChain : Nat → Bool) (response : FetchResponse)
    (chain : ViemChain) (url : String) :
    (response.status = 200 → defaultOnFetchResponse isTestnetChain response chain url = []) ∧
    (response.status ≠ 200 →
      ∃ entry, defaultOnFetchResponse isTestnetChain response chain url = [entry] ∧
        entry.level = (if isTestnetChain chain.id then LogLevel.warn else LogLevel.error) ∧
        entry.chainId = chain.id ∧ entry.url = url ∧
        entry.fileTag = "wagmiConfig.ts" ∧ entry.functionTag = "client") := by
  constructor
  · intro h
    simp [defaultOnFetchResponse, h]
  · intro h
    by_cases ht : isTestnetChain chain.id
    · refine ⟨{ level := .warn, fileTag := "wagmiConfig.ts", functionTag := "client",
                message := "RPC provider returned non-200 status: " ++ toString response.status,
                chainId := chain.id, url := url }, ?_, ?_, rfl, rfl, rfl, rfl⟩
      · simp [defaultOnFetchResponse, h, ht]
      · simp [ht]
    · refine ⟨{ level := .error, fileTag := "wagmiConfig.ts", functionTag := "client",
                message := "RPC provider returned non-200 status: " ++ toString response.status,
                chainId := chain.id, url := url }, ?_, ?_, rfl, rfl, rfl, rfl⟩
      · simp [defaultOnFetchResponse, h, ht]
      · simp [ht]

/-- Witness for C8: a 500 on a testnet logs one warning entry, a 500 on a
production chain logs one error entry, and a 200 logs nothing. -/
theorem claim_C8_witness :
    (∃ entry, defaultOnFetchResponse (fun _ => true) { status := 500 } chainMainFix "urlA" =
      [entry] ∧ entry.level = LogLevel.warn ∧ entry.chainId = 1 ∧ entry.url = "urlA" ∧
      entry.fileTag = "wagmiConfig.ts") ∧
    (∃ entry, defaultOnFetchResponse (fun _ => false) { status := 500 } chainMainFix "urlA" =
      [entry] ∧ entry.level = LogLevel.error) ∧
    defaultOnFetchResponse (fun _ => false) { status := 200 } chainMainFix "urlA" = [] := by
  refine ⟨?_, ?_, ?_⟩
  · obtain ⟨entry, he, hl, hc, hu, hf, _⟩ :=
      (claim_C8 (fun _ => true) { status := 500 } chainMainFix "urlA").2 (by decide)
    exact ⟨entry, he, by simpa using hl, hc, hu, hf⟩
  · obtain ⟨entry, he, hl, _, _, _, _⟩ :=
      (claim_C8 (fun _ => false) { status := 500 } chainMainFix "urlA").2 (by decide)
    exact ⟨entry, he, by simpa using hl⟩
  · exact (claim_C8 (fun _ => false) { status := 200 } chainMainFix "urlA").1 rfl

/-- When the client carries a chain, the adapter always yields a provider
(cache hit or fresh construction). -/
theorem clientToProvider_ok_of_chain (st : ProviderCache) (c : WebClient) (ch : ViemChain)
    (hch : c.chain = some ch) (chainId : Option Nat) :
    ∃ p, (clientToProvider st (some c) chainId).1 = .ok (some p) := by
  rcases hf : st.entries.find? (fun e => e.1 = c.handle) with _ | e
  · refine ⟨⟨st.nextId, c.transport,
      ⟨ch.id, ch.name,
        ch.contracts.bind (fun cts => Option.map (fun r => r.address) cts.ensRegistry)⟩⟩, ?_⟩
    simp [clientToProvider, hch, hf]
  · refine ⟨e.2, ?_⟩
    simp [clientToProvider, hch, hf]

/-- Claim C9: the read-only hook adapts the disconnected read-only client
whenever the connected account's chain differs from the requested chain,
otherwise the connected client with fallback to the disconnected one, and
(whenever the wagmi clients are present with chain data, as the framework
guarantees for supported chains) it always yields a usable provider; the
signing-capable hook adapts only the connected client and yields an absent
value when no wallet client is connected. -/
theorem claim_C9 (st : ProviderCache) (accountChainId chainId : Option Nat)
    (client disconnectedClient : Option WebClient) :
    (accountChainId ≠ chainId →
      useEthersProvider st accountChainId chainId client disconnectedClient =
        clientToProvider st disconnectedClient chainId) ∧
    (accountChainId = chainId →
      useEthersProvider st accountChainId chainId client disconnectedClient =
        clientToProvider st
          (match client with
           | some c => some c
           | none => disconnectedClient) chainId) ∧
    ((∀ d, disconnectedClient = some d → ∃ dch, d.chain = some dch) →
     (∀ c, client = some c → ∃ ch, c.chain = some ch) →
     disconnectedClient ≠ none →
     ∃ p, (useEthersProvider st accountChainId chainId client disconnectedClient).1 =
       .ok (some p)) ∧
    ((useEthersWeb3Provider st chainId none).1 = .ok none) ∧
    (∀ c, useEthersWeb3Provider st chainId (some c) = clientToProvider st (some c) chainId) := by
  refine ⟨?_, ?_, ?_, ?_, ?_⟩
  · intro h
    simp [useEthersProvider, h]
  · intro h
    simp [useEthersProvider, h]
  · intro hwd hwc hdn
    rcases hd : disconnectedClient with _ | d
    · exact absurd hd hdn
    · obtain ⟨dch, hdch⟩ := hwd d hd
      by_cases hne : accountChainId ≠ chainId
      · have hsel : useEthersProvider st accountChainId chainId client (some d) =
            clientToProvider st (some d) chainId := by
          simp [useEthersProvider, hne]
        rw [hsel]
        exact clientToProvider_ok_of_chain st d dch hdch chainId
      · rcases hc : client with _ | c
        · have hsel : useEthersProvider st accountChainId chainId none (some d) =
              clientToProvider st (some d) chainId := by
            simp [useEthersProvider, hne]
          rw [hsel]
          exact clientToProvider_ok_of_chain st d dch hdch chainId
        · obtain ⟨ch, hch⟩ := hwc c hc
          have hsel : useEthersProvider st accountChainId chainId (some c) (some d) =
              clientToProvider st (some c) chainId := by
            simp [useEthersProvider, hne]
          rw [hsel]
          exact clientToProvider_ok_of_chain st c ch hch chainId
  · rfl
  · intro c
    rfl

/-- Witness for C9: with the account on chain 1 and chain 1 requested, the
connected client is adapted and a provider exists; with no connected wallet
client the signing-capable hook yields an absent value. -/
theorem claim_C9_witness :
    useEthersProvider ProviderCache.empty (some 1) (some 1) (some clientMainFix) none =
      clientToProvider ProviderCache.empty (some clientMainFix) (some 1) ∧
    (∃ p, (useEthersProvider ProviderCache.empty (some 1) (some 1) (some clientMainFix)
      (some clientMainFix)).1 = .ok (some p)) ∧
    (useEthersWeb3Provider ProviderCache.empty (some 1) none).1 = .ok none := by
  refine ⟨?_, ?_, ?_⟩
  · exact (claim_C9 ProviderCache.empty (some 1) (some 1) (some clientMainFix) none).2.1 rfl
  · exact (claim_C9 ProviderCache.empty (some 1) (some 1) (some clientMainFix)
      (some clientMainFix)).2.2.1
      (fun d hd => ⟨chainMainFix, by cases hd; rfl⟩)
      (fun c hc => ⟨chainMainFix, by cases hc; rfl⟩)
      (by simp)
  · exact (claim_C9 ProviderCache.empty (some 1) (some 1) none none).2.2.2.1

/-- Claim C10: the Universal Router fee-field builder yields an absent value
exactly when the trade is absent, not classic, or carries no swap fee;
otherwise an exact-input trade yields only the percentage-fee record and any
other trade type yields only the flat-fee record (amount via
`BigNumber.from`), the two shapes being distinct constructors of the union. -/
theorem claim_C10 (trade : Option InterfaceTrade) :
    (getUniversalRouterFeeFields trade = none ↔
      (isClassicTrade trade = false ∨ ∃ common, trade = some (.classic common none))) ∧
    (∀ common fee, trade = some (.classic common (some fee)) →
      (common.tradeType = .EXACT_INPUT →
        getUniversalRouterFeeFields trade =
          some (.feeOptions { fee := fee.percent, recipient := fee.recipient })) ∧
      (common.tradeType = .EXACT_OUTPUT →
        getUniversalRouterFeeFields trade =
          some (.flatFeeOptions { amount := bigNumberFrom fee.amount,
                                  recipient := fee.recipient }))) := by
  constructor
  · rcases trade with _ | t
    · simp [getUniversalRouterFeeFields, isClassicTrade]
    · rcases t with ⟨common, fee⟩ | ⟨common, oot⟩ | ⟨common, oot⟩
      · rcases fee with _ | fee
        · constructor
          · intro _
            exact Or.inr ⟨common, rfl⟩
          · intro _
            rfl
        · constructor
          · intro h
            exfalso
            by_cases hd : common.tradeType = TradeType.EXACT_INPUT <;>
              simp [getUniversalRouterFeeFields, hd] at h
          · rintro (h | ⟨common2, h⟩)
            · simp [isClassicTrade] at h
            · simp at h
      · simp [getUniversalRouterFeeFields, isClassicTrade]
      · simp [getUniversalRouterFeeFields, isClassicTrade]
  · rintro common fee rfl
    constructor
    · intro hd
      simp [getUniversalRouterFeeFields, hd]
    · intro hd
      have hne : ¬ common.tradeType = TradeType.EXACT_INPUT := by
        rw [hd]
        intro hc
        cases hc
      simp [getUniversalRouterFeeFields, hne]

/-- Witness for C10: the classic fixture trade with a swap fee yields the
percentage-fee record, and an absent trade yields an absent value. -/
theorem claim_C10_witness :
    getUniversalRouterFeeFields (some tradeClassicFix) =
      some (.feeOptions { fee := { num := 1, den := 400 }, recipient := "0xfeeRecipient" }) ∧
    getUniversalRouterFeeFields none = none := by
  constructor
  · exact ((claim_C10 (some tradeClassicFix)).2 commonInFix
      { percent := { num := 1, den := 400 }, amount := 25, recipient := "0xfeeRecipient" }
      rfl).1 rfl
  · exact (claim_C10 none).1.mpr (Or.inl rfl)

end UniswapInterface
